import Mathlib

/-
A shallow embedding of the pg_connlimit module (src/pg_connlimit.c) and
theorems about its admission-control pipeline.

Modelling conventions:
  - A C NUL-terminated string is modelled as the list of its bytes before
    the terminating NUL, each byte a Nat in 0..255.  Such a list therefore
    never contains the byte 0.
  - errno is modelled explicitly: enforce_limit takes the errno value at
    entry and returns the errno value visible to the caller on return.
  - The filesystem and the host runtime collaborators (get_role_oid,
    CountUserBackends, the GUC connlimit.directory) are an explicit
    environment record.
-/

namespace PgConnlimit

/-- The character-range test of isalphanum, src/pg_connlimit.c lines 130-132:
digits 0-9 are bytes 48-57, uppercase A-Z are 65-90, lowercase a-z are 97-122.
The C code compares char values; bytes 128-255 are negative as signed char and
fail every range test there, and here they are simply outside all three ranges,
so the two agree on every byte. -/
def isAlnumByte (c : Nat) : Bool :=
  (48 ≤ c && c ≤ 57) || (65 ≤ c && c ≤ 90) || (97 ≤ c && c ≤ 122)

/-- The do-while walk of isalphanum, src/pg_connlimit.c lines 128-141: advance
while the current byte is alphanumeric, return false at the first byte that is
not, return true on reaching the terminating NUL (end of list). -/
def isalphanumLoop : List Nat → Bool
  | [] => true
  | c :: rest => if isAlnumByte c then isalphanumLoop rest else false

/-- isalphanum, src/pg_connlimit.c lines 117-142: an empty string is
non-alphanumeric (lines 124-126), otherwise the byte walk decides. -/
def isalphanum (str : List Nat) : Bool :=
  match str with
  | [] => false
  | _ :: _ => isalphanumLoop str

/-- ERANGE, the errno value strtol sets on overflow (value 34 on Linux). -/
def ERANGE : Nat := 34

/-- LONG_MAX on the LP64 platforms Postgres targets: 2 to the 63rd minus 1. -/
def LONG_MAX : Int := 9223372036854775807

/-- LONG_MIN on LP64: minus 2 to the 63rd. -/
def LONG_MIN : Int := -9223372036854775808

/-- maxlen of a StringInfo fresh from initStringInfo: the initial allocation
is 1024 bytes, so limitBuf.maxlen = 1024 at src/pg_connlimit.c line 195. -/
def limitBufMaxlen : Nat := 1024

/-- remaining, src/pg_connlimit.c line 198: limitBuf.maxlen minus the size of
the NUL character literal.  In C a character literal has type int, so its
size is 4 on the supported platforms, giving 1024 - 4 = 1020. -/
def limitRemaining : Nat := limitBufMaxlen - 4

/-- The SQLSTATE of ERRCODE_TOO_MANY_CONNECTIONS, used by the ereport at
src/pg_connlimit.c line 244. -/
def ERRCODE_TOO_MANY_CONNECTIONS : String := "53300"

/-- STATUS_OK, the successful-authentication status tested at
src/pg_connlimit.c line 105 (value 0 in the Postgres headers). -/
def STATUS_OK : Int := 0

/-- The byte of the path separator appended at src/pg_connlimit.c line 175. -/
def slashByte : Nat := 47

/-- Whitespace in the C locale, as skipped by strtol before the sign and the
digits: space (32) and the bytes 9-13 (tab, newline, vertical tab, form
feed, carriage return). -/
def isSpaceByte (c : Nat) : Bool :=
  c == 32 || (9 ≤ c && c ≤ 13)

/-- A decimal digit byte, 48-57. -/
def isDigitByte (c : Nat) : Bool :=
  48 ≤ c && c ≤ 57

/-- Drop the leading whitespace bytes, as strtol does first. -/
def dropSpaces (l : List Nat) : List Nat :=
  l.dropWhile isSpaceByte

/-- The maximal run of leading decimal digit bytes. -/
def takeDigits (l : List Nat) : List Nat :=
  l.takeWhile isDigitByte

/-- The value of a list of decimal digit bytes, most significant first. -/
def digitsVal (l : List Nat) : Nat :=
  l.foldl (fun acc c => acc * 10 + (c - 48)) 0

/-- Strip one optional sign byte, as strtol does after the whitespace:
43 is the plus sign, 45 the minus sign.  Returns (negative, rest). -/
def stripSign (l : List Nat) : Bool × List Nat :=
  match l with
  | [] => (false, [])
  | c :: rest =>
      if c = 43 then (false, rest)
      else if c = 45 then (true, rest)
      else (false, c :: rest)

/-- strtol(nptr, NULL, 10) with glibc semantics, as called at
src/pg_connlimit.c line 226, returning (value, errno after the call) given
the errno before the call: skip whitespace, strip one optional sign, read the
maximal run of decimal digits.  If that run is empty no conversion is
performed: the result is 0 and errno is left unchanged (glibc does not set
EINVAL here, which is what makes line 228 unable to detect this case).  If
the signed value overflows the range of long, the result is clamped to
LONG_MAX or LONG_MIN and errno is set to ERANGE.  Otherwise errno is left
unchanged.  The terminating NUL written at line 221 is the end of the list;
parsing stops at the first non-digit in any case, so trailing bytes after the
digit run are ignored (endptr is NULL). -/
def strtol10 (s : List Nat) (errno0 : Nat) : Int × Nat :=
  let s1 := dropSpaces s
  let sg := stripSign s1
  let ds := takeDigits sg.2
  if ds.isEmpty then (0, errno0)
  else
    let mag : Int := (digitsVal ds : Int)
    let sv : Int := if sg.1 then -mag else mag
    if LONG_MAX < sv then (LONG_MAX, ERANGE)
    else if sv < LONG_MIN then (LONG_MIN, ERANGE)
    else (sv, errno0)

/-- The state of the limit-source path as seen by the open/read calls of
enforce_limit.  The open retry loop (src/pg_connlimit.c lines 182-186)
repeats while open fails with EAGAIN; this type records the eventual
non-EAGAIN outcome.
  - openErr e: open eventually fails, leaving errno = e (a failing open
    always sets a nonzero errno, recorded by the proof field).
  - readErr e: open succeeds, and the first non-EAGAIN read fails with
    errno = e, nonzero.
  - content bytes: open succeeds and reads succeed; the file holds these
    bytes.  Under regular-file semantics a read request of n bytes at
    offset 0 returns the first min(n, length) bytes and leaves the errno
    that was zeroed at line 203 at zero. -/
inductive FileState where
  | openErr (e : Nat) (he : e ≠ 0)
  | readErr (e : Nat) (he : e ≠ 0)
  | content (bytes : List Nat)

/-- The host-runtime environment of enforce_limit: the connlimit.directory
GUC (none models the NULL pointer tested at line 156), get_role_oid with
missing_ok = true (0 is InvalidOid, the not-found result tested by
OidIsValid at line 162), the filesystem, and CountUserBackends (a count of
live backends, which is never negative). -/
structure Env where
  connlimitDirectory : Option (List Nat)
  roleOid : List Nat → Nat
  fs : List Nat → FileState
  countUserBackends : Nat → Nat

/-- The outcome of a connection attempt: silent admission (enforce_limit
returns normally) or the fatal ereport of src/pg_connlimit.c lines 243-246
with ERRCODE_TOO_MANY_CONNECTIONS and the role name. -/
inductive Decision where
  | allow
  | reject (errcode : String) (rolname : List Nat)
deriving DecidableEq

/-- Which branch of enforce_limit produced the result.  readFail and
tooLarge are the two disjuncts of the single test at line 210
(errno != 0 or limitBuf.len == limitBuf.maxlen). -/
inductive Outcome where
  | featureDisabled
  | unknownRole
  | invalidName
  | openFail
  | readFail
  | tooLarge
  | parseFail
  | underLimit
  | overQuota
deriving DecidableEq

/-- The observable result of one enforce_limit call: the decision, the
branch taken, the path handed to open (none when control returns before the
path is built at lines 173-176), and the errno value visible to the caller
afterwards. -/
structure EnforceResult where
  decision : Decision
  outcome : Outcome
  path : Option (List Nat)
  errnoFinal : Nat
deriving DecidableEq

/-- The probe path built at src/pg_connlimit.c lines 173-176: the directory,
one separator, the role name. -/
def limitPath (dir rolname : List Nat) : List Nat :=
  dir ++ [slashByte] ++ rolname

/-- enforce_limit, src/pg_connlimit.c lines 144-258.
  - Line 156: a NULL connlimit.directory returns at once, errno untouched.
  - Lines 159-163: an invalid role oid returns at once, errno untouched.
  - Lines 169-170: a non-alphanumeric role name returns at once.
  - Lines 173-179: the path is built and save_errno captures errno, which
    nothing before this point has modified.
  - Lines 182-192: the open retry loop; a failing open leaves errno nonzero
    and control goes to cleanup, which restores errno = save_errno.
  - Lines 195-208: the read loop.  errno is zeroed before every read, so a
    successful read leaves errno = 0 and the loop condition errno == EAGAIN
    is then false: the loop exits after the first non-EAGAIN read.  Under
    regular-file semantics that single read returns the first
    min(limitRemaining, file length) bytes, so limitBuf.len is at most
    limitRemaining = 1020.  A failing read leaves errno nonzero.
  - Line 210: goto cleanup_opened when errno != 0 (readFail) or
    limitBuf.len == limitBufMaxlen (tooLarge; note limitBuf.len never
    exceeds 1020, faithfully preserved here by the same comparison).
  - Lines 220-232: NUL-terminate and strtol; a nonzero errno afterwards
    goes to cleanup_opened (parseFail).
  - Lines 240-247: if CountUserBackends(roleid) >= limit, set
    errno = save_errno and ereport(FATAL) with
    ERRCODE_TOO_MANY_CONNECTIONS, which never returns.
  - Lines 249-257: every returning path frees its buffers and restores
    errno = save_errno.  The comparison promotes the int count to long, so
    it is carried out in Int here with the count cast from Nat. -/
def enforce_limit (env : Env) (rolname : List Nat) (errno0 : Nat) : EnforceResult :=
  match env.connlimitDirectory with
  | none =>
      { decision := .allow, outcome := .featureDisabled, path := none, errnoFinal := errno0 }
  | some dir =>
      if env.roleOid rolname = 0 then
        { decision := .allow, outcome := .unknownRole, path := none, errnoFinal := errno0 }
      else if isalphanum rolname = false then
        { decision := .allow, outcome := .invalidName, path := none, errnoFinal := errno0 }
      else
        let path := limitPath dir rolname
        let save_errno := errno0
        match env.fs path with
        | .openErr _ _ =>
            { decision := .allow, outcome := .openFail, path := some path,
              errnoFinal := save_errno }
        | .readErr _ _ =>
            { decision := .allow, outcome := .readFail, path := some path,
              errnoFinal := save_errno }
        | .content bytes =>
            let buffered := bytes.take limitRemaining
            if buffered.length = limitBufMaxlen then
              { decision := .allow, outcome := .tooLarge, path := some path,
                errnoFinal := save_errno }
            else
              let pr := strtol10 buffered 0
              if pr.2 ≠ 0 then
                { decision := .allow, outcome := .parseFail, path := some path,
                  errnoFinal := save_errno }
              else if (env.countUserBackends (env.roleOid rolname) : Int) ≥ pr.1 then
                { decision := .reject ERRCODE_TOO_MANY_CONNECTIONS rolname,
                  outcome := .overQuota, path := some path, errnoFinal := save_errno }
              else
                { decision := .allow, outcome := .underLimit, path := some path,
                  errnoFinal := save_errno }

/-- The events observable from one client_auth_hook invocation. -/
inductive HookEvent where
  | enforceCalled
  | fatalExit
  | prevHookCalled
deriving DecidableEq

/-- client_auth_hook, src/pg_connlimit.c lines 98-114, as the list of events
it produces: when status is STATUS_OK it first calls enforce_limit on
port->user_name (lines 105-106); a rejecting enforce_limit issues
ereport(FATAL), which terminates the process, so control never reaches the
call of the saved previous hook at lines 108-112.  When enforce_limit
returns (admits) or status is not STATUS_OK, the previous hook, if one was
registered, is called once. -/
def client_auth_hook (env : Env) (userName : List Nat) (status : Int)
    (prevHookPresent : Bool) (errno0 : Nat) : List HookEvent :=
  if status = STATUS_OK then
    match (enforce_limit env userName errno0).decision with
    | .reject _ _ => [.enforceCalled, .fatalExit]
    | .allow =>
        .enforceCalled :: (if prevHookPresent then [.prevHookCalled] else [])
  else
    if prevHookPresent then [.prevHookCalled] else []

/-- An environment with one configured directory, one known role of oid 1,
one limit-source state at the resolved path of that role (every other path
fails to open with errno 2, ENOENT), and a constant live-backend count. -/
def mkEnv (dir rolname : List Nat) (st : FileState) (cnt : Nat) : Env :=
  { connlimitDirectory := some dir
    roleOid := fun n => if n = rolname then 1 else 0
    fs := fun p => if p = limitPath dir rolname then st else .openErr 2 (by decide)
    countUserBackends := fun _ => cnt }

/-- Directory d, role r, limit file containing the bytes of abc, live
count 0. -/
def envAbc : Env :=
  mkEnv [100] [114] (.content [97, 98, 99]) 0

/-- Directory set to the empty string, role r, a file at the resolved path
(the slash followed by r) containing the single digit 0, live count 0. -/
def envEmptyDir : Env :=
  mkEnv [] [114] (.content [48]) 0

/-- Directory d, role r, limit file of 1021 bytes: the digit 0 followed by
1020 newline bytes, so end of file is not reached within the 1020-byte read
bound.  Live count 0. -/
def envOverlong : Env :=
  mkEnv [100] [114] (.content (48 :: List.replicate 1020 10)) 0

/-- Directory d, role r, limit file of 1044 digit bytes: 1018 zeros followed
by 26 nines, a digit run denoting 10^26 - 1, far beyond LONG_MAX.  Live
count 99. -/
def envZeroPad : Env :=
  mkEnv [100] [114] (.content (List.replicate 1018 48 ++ List.replicate 26 57)) 99

/-- Directory d, role r, limit file containing the two bytes of 10, live
count 9. -/
def envTen9 : Env :=
  mkEnv [100] [114] (.content [49, 48]) 9

/-- Directory d, role r, limit file containing the two bytes of 10, live
count 10. -/
def envTen10 : Env :=
  mkEnv [100] [114] (.content [49, 48]) 10

/-- Directory d, role r, open of the limit source fails with errno 13
(EACCES), live count 0. -/
def envOpenErr : Env :=
  mkEnv [100] [114] (.openErr 13 (by decide)) 0

/-- Directory d, role r, limit file of 22 nine bytes, a digit run denoting
10^22 - 1, beyond LONG_MAX.  Live count 0. -/
def envOverflow : Env :=
  mkEnv [100] [114] (.content (List.replicate 22 57)) 0

/-- Directory d, role r, limit file containing the single digit 0, live
count 0. -/
def envZero : Env :=
  mkEnv [100] [114] (.content [48]) 0

/-- The feature-disabled environment: connlimit.directory is NULL. -/
def envOff : Env :=
  { connlimitDirectory := none
    roleOid := fun _ => 1
    fs := fun _ => .openErr 2 (by decide)
    countUserBackends := fun _ => 0 }

/-- The signed value denoted by the leading digit run of a byte sequence,
after optional whitespace and one optional sign, exactly as strtol10 reads
it before any range clamping. -/
def signedValue (s : List Nat) : Int :=
  let sg := stripSign (dropSpaces s)
  if sg.1 then -(digitsVal (takeDigits sg.2) : Int)
  else (digitsVal (takeDigits sg.2) : Int)

/-- The errno value enforce_limit leaves behind always equals the value at
entry: the three early returns never touch errno, and every other return
path runs the cleanup code of src/pg_connlimit.c lines 249-257, which
restores errno = save_errno. -/
theorem enforce_limit_errnoFinal (env : Env) (rolname : List Nat) (e0 : Nat) :
    (enforce_limit env rolname e0).errnoFinal = e0 := by
  unfold enforce_limit
  dsimp only
  repeat' split
  all_goals rfl

/-- The byte walk of isalphanum agrees with the all-bytes-alphanumeric
predicate. -/
theorem isalphanumLoop_eq_all (l : List Nat) :
    isalphanumLoop l = l.all isAlnumByte := by
  induction l with
  | nil => rfl
  | cons c t ih =>
      by_cases h : isAlnumByte c <;>
        simp [isalphanumLoop, h, ih, List.all_cons]

/-- When every stage up to the open succeeds and the file opens and reads as
content bytes, enforce_limit reduces to the parse stage on the first
limitRemaining bytes of the file followed by the quota comparison.  The
too-large branch of src/pg_connlimit.c line 210 never fires: the buffered
length is at most limitRemaining = 1020, which is below
limitBufMaxlen = 1024. -/
theorem enforce_limit_content (env : Env) (dir rolname bytes : List Nat) (e0 : Nat)
    (hdir : env.connlimitDirectory = some dir)
    (hrole : env.roleOid rolname ≠ 0)
    (hname : isalphanum rolname = true)
    (hfs : env.fs (limitPath dir rolname) = .content bytes) :
    enforce_limit env rolname e0 =
      (if (strtol10 (bytes.take limitRemaining) 0).2 ≠ 0 then
        { decision := .allow, outcome := .parseFail,
          path := some (limitPath dir rolname), errnoFinal := e0 }
      else if (env.countUserBackends (env.roleOid rolname) : Int)
          ≥ (strtol10 (bytes.take limitRemaining) 0).1 then
        { decision := .reject ERRCODE_TOO_MANY_CONNECTIONS rolname,
          outcome := .overQuota, path := some (limitPath dir rolname), errnoFinal := e0 }
      else
        { decision := .allow, outcome := .underLimit,
          path := some (limitPath dir rolname), errnoFinal := e0 }) := by
  have hlen : (bytes.take limitRemaining).length ≠ limitBufMaxlen := by
    rw [List.length_take]
    have h := Nat.min_le_left limitRemaining bytes.length
    simp only [limitRemaining, limitBufMaxlen] at *
    omega
  unfold enforce_limit
  rw [hdir]
  simp only [hrole, if_false, hname, hfs, hlen]
  simp

/-- C1: the claim fails on the code.  With limit-file content abc the byte
sequence has no digits after the optional sign (first conjunct), yet
enforce_limit does not fail open: strtol returns 0 with errno left at 0, so
the code takes 0 as the limit and, the backend count being at least 0, the
comparison at src/pg_connlimit.c line 240 always holds and the connection is
fatally rejected, here at live count 0. -/
theorem no_digit_content_is_rejected_by_code :
    takeDigits (stripSign (dropSpaces [97, 98, 99])).2 = []
      ∧ enforce_limit envAbc [114] 0 =
          { decision := .reject ERRCODE_TOO_MANY_CONNECTIONS [114],
            outcome := .overQuota, path := some (limitPath [100] [114]),
            errnoFinal := 0 } := by
  decide

/-- C2, counterexample: with connlimit.directory set to the empty string
(not NULL), the check at src/pg_connlimit.c line 156 does not short-circuit:
the path slash-r is built, its file (content: the digit 0) is read and the
limit 0 is enforced, rejecting role r at live count 0 instead of admitting
it. -/
theorem empty_directory_does_not_short_circuit :
    envEmptyDir.connlimitDirectory = some []
      ∧ (enforce_limit envEmptyDir [114] 0).decision
          = .reject ERRCODE_TOO_MANY_CONNECTIONS [114] := by
  decide

/-- C2, amended: only an unset (NULL) connlimit.directory short-circuits the
admission check: the result is admit for every principal and every errno,
with no path ever built (no limit read or enforced). -/
theorem unset_directory_short_circuits (env : Env) (rolname : List Nat)
    (e0 : Nat) (h : env.connlimitDirectory = none) :
    enforce_limit env rolname e0 =
      { decision := .allow, outcome := .featureDisabled, path := none,
        errnoFinal := e0 } := by
  unfold enforce_limit
  rw [h]

/-- Witness for the amended C2 at a concrete unset environment. -/
theorem unset_directory_short_circuits_witness :
    enforce_limit envOff [114] 5 =
      { decision := .allow, outcome := .featureDisabled, path := none,
        errnoFinal := 5 } :=
  unset_directory_short_circuits envOff [114] 5 rfl

/-- C4: when the directory is configured, the role is known, its name is
alphanumeric, the file reads as content bytes and strtol parses a limit with
errno still 0, the decision is reject with ERRCODE_TOO_MANY_CONNECTIONS
exactly when the live backend count is at least the limit, and admit exactly
when the count is below the limit. -/
theorem decision_iff_live_count_vs_limit (env : Env) (dir rolname bytes : List Nat)
    (lim : Int) (e0 : Nat)
    (hdir : env.connlimitDirectory = some dir)
    (hrole : env.roleOid rolname ≠ 0)
    (hname : isalphanum rolname = true)
    (hfs : env.fs (limitPath dir rolname) = .content bytes)
    (hparse : strtol10 (bytes.take limitRemaining) 0 = (lim, 0)) :
    ((enforce_limit env rolname e0).decision
        = .reject ERRCODE_TOO_MANY_CONNECTIONS rolname
      ↔ (env.countUserBackends (env.roleOid rolname) : Int) ≥ lim)
    ∧ ((enforce_limit env rolname e0).decision = .allow
      ↔ (env.countUserBackends (env.roleOid rolname) : Int) < lim) := by
  rw [enforce_limit_content env dir rolname bytes e0 hdir hrole hname hfs, hparse]
  by_cases h : (env.countUserBackends (env.roleOid rolname) : Int) ≥ lim
  · simp [h]
  · simp [h, lt_of_not_ge h]

/-- Witness for C4: limit file 10 with live count 9 admits; live count 10 is
rejected with the too-many-connections condition. -/
theorem decision_iff_live_count_vs_limit_witness :
    (enforce_limit envTen9 [114] 0).decision = Decision.allow
      ∧ (enforce_limit envTen10 [114] 0).decision
          = Decision.reject ERRCODE_TOO_MANY_CONNECTIONS [114] :=
  ⟨(decision_iff_live_count_vs_limit envTen9 [100] [114] [49, 48] 10 0 rfl
      (by decide) (by decide) rfl (by decide)).2.mpr (by decide),
   (decision_iff_live_count_vs_limit envTen10 [100] [114] [49, 48] 10 0 rfl
      (by decide) (by decide) rfl (by decide)).1.mpr (by decide)⟩

/-- C6: the validator isalphanum returns false exactly for the empty name
and for names containing a byte outside the three alphanumeric ranges, and
whenever it returns false the check returns without building any filesystem
path from the name. -/
theorem validator_false_iff_and_no_path (name : List Nat) :
    (isalphanum name = false
        ↔ name = [] ∨ ∃ c ∈ name, isAlnumByte c = false)
    ∧ ∀ (env : Env) (e0 : Nat),
        isalphanum name = false → (enforce_limit env name e0).path = none := by
  constructor
  · cases name with
    | nil => simp [isalphanum]
    | cons c t =>
        simp only [isalphanum, isalphanumLoop_eq_all, List.all_eq_false]
        by_cases h : isAlnumByte c <;> simp [h]
  · intro env e0 h
    unfold enforce_limit
    cases hd : env.connlimitDirectory with
    | none => rfl
    | some dir => split_ifs <;> rfl

/-- Witness for C6 at the one-byte name consisting of a dot (byte 46). -/
theorem validator_false_iff_and_no_path_witness :
    (enforce_limit envAbc [46] 0).path = none :=
  (validator_false_iff_and_no_path [46]).2 envAbc 0 (by decide)

/-- C7: whatever nonzero errno the open of the limit source fails with (2
for a missing file, 13 for permission denied, or any other), enforce_limit
admits, takes the openFail branch, and restores the errno it was entered
with: nothing is surfaced to the caller. -/
theorem open_failure_admits (env : Env) (dir rolname : List Nat) (e0 e : Nat)
    (he : e ≠ 0)
    (hdir : env.connlimitDirectory = some dir)
    (hrole : env.roleOid rolname ≠ 0)
    (hname : isalphanum rolname = true)
    (hfs : env.fs (limitPath dir rolname) = .openErr e he) :
    enforce_limit env rolname e0 =
      { decision := .allow, outcome := .openFail,
        path := some (limitPath dir rolname), errnoFinal := e0 } := by
  unfold enforce_limit
  rw [hdir]
  simp only [hrole, if_false, hname, hfs]
  simp

/-- Witness for C7: an open failing with errno 13 (permission denied)
admits and hands errno 7 back unchanged. -/
theorem open_failure_admits_witness :
    enforce_limit envOpenErr [114] 7 =
      { decision := .allow, outcome := .openFail,
        path := some (limitPath [100] [114]), errnoFinal := 7 } :=
  open_failure_admits envOpenErr [100] [114] 7 13 (by decide) rfl (by decide)
    (by decide) rfl

/-- C9: on every return path that admits, the errno visible to the caller
equals the errno captured at the start of the check; every transient
perturbation (the zeroing before open and read, EAGAIN, ERANGE from strtol)
stays internal. -/
theorem errno_restored_on_allow (env : Env) (rolname : List Nat) (errno0 : Nat)
    (_h : (enforce_limit env rolname errno0).decision = Decision.allow) :
    (enforce_limit env rolname errno0).errnoFinal = errno0 :=
  enforce_limit_errnoFinal env rolname errno0

/-- Witness for C9 on the admitting open-failure path with entry errno 7. -/
theorem errno_restored_on_allow_witness :
    (enforce_limit envOpenErr [114] 7).errnoFinal = 7 :=
  errno_restored_on_allow envOpenErr [114] 7 (by decide)

/-- C10: a successfully parsed limit that is zero or negative rejects every
connection attempt of that principal, since the backend count, cast from a
natural number, is never below it. -/
theorem nonpositive_limit_rejects_all (env : Env) (dir rolname bytes : List Nat)
    (lim : Int) (e0 : Nat)
    (hdir : env.connlimitDirectory = some dir)
    (hrole : env.roleOid rolname ≠ 0)
    (hname : isalphanum rolname = true)
    (hfs : env.fs (limitPath dir rolname) = .content bytes)
    (hparse : strtol10 (bytes.take limitRemaining) 0 = (lim, 0))
    (hlim : lim ≤ 0) :
    (enforce_limit env rolname e0).decision
      = .reject ERRCODE_TOO_MANY_CONNECTIONS rolname := by
  rw [enforce_limit_content env dir rolname bytes e0 hdir hrole hname hfs, hparse]
  have h : (env.countUserBackends (env.roleOid rolname) : Int) ≥ lim :=
    le_trans hlim (Int.natCast_nonneg _)
  simp [h]

/-- Witness for C10: a limit file holding the digit 0 rejects role r even at
live count 0. -/
theorem nonpositive_limit_rejects_all_witness :
    (enforce_limit envZero [114] 0).decision
      = Decision.reject ERRCODE_TOO_MANY_CONNECTIONS [114] :=
  nonpositive_limit_rejects_all envZero [100] [114] [48] 0 0 rfl (by decide)
    (by decide) rfl (by decide) (by decide)

/-- C5, counterexample: with a previously registered handler present and a
successfully authenticated attempt that enforce_limit rejects (environment
envAbc, whose limit file abc is enforced as limit 0), ereport(FATAL) at
src/pg_connlimit.c line 243 terminates the process inside enforce_limit, so
control never reaches the saved-hook call at lines 108-112: the previous
handler runs zero times, not once. -/
theorem prev_hook_skipped_on_fatal_reject :
    (client_auth_hook envAbc [114] STATUS_OK true 0).count
      HookEvent.prevHookCalled = 0 := by
  decide

/-- C5, amended: a previously registered handler, when present, runs exactly
once on every invocation in which the check does not fatally reject the
attempt (every admitting invocation and every non-OK status); on the fatal
reject path it runs zero times, because the process exits first. -/
theorem prev_hook_runs_once_unless_fatal (env : Env) (u : List Nat)
    (status : Int) (e0 : Nat) :
    (client_auth_hook env u status true e0).count HookEvent.prevHookCalled =
      if status = STATUS_OK ∧ (enforce_limit env u e0).decision ≠ Decision.allow
      then 0 else 1 := by
  unfold client_auth_hook
  by_cases hs : status = STATUS_OK
  · cases hd : (enforce_limit env u e0).decision with
    | allow => simp [hs, hd]
    | reject c r => simp [hs, hd]
  · simp [hs]

/-- The leading byte 48 (the digit zero) is neither a plus nor a minus
sign. -/
theorem stripSign_cons_48 (t : List Nat) :
    stripSign (48 :: t) = (false, 48 :: t) :=
  rfl

/-- Folding the digit-accumulation step of digitsVal over any run of zero
digits starting from accumulator 0 stays at 0. -/
theorem digits_foldl_zeros (n : Nat) :
    List.foldl (fun acc c => acc * 10 + (c - 48)) 0 (List.replicate n 48)
      = 0 := by
  induction n with
  | zero => rfl
  | succ n ih => rw [List.replicate_succ, List.foldl_cons]; simpa using ih

/-- Leading zero digits do not change the value a digit run denotes. -/
theorem digitsVal_zeros_append (n : Nat) (l : List Nat) :
    digitsVal (List.replicate n 48 ++ l) = digitsVal l := by
  unfold digitsVal
  rw [List.foldl_append, digits_foldl_zeros]

/-- strtol10 on the digit zero followed by n newline bytes parses the value
0 with errno left at 0: the newline terminates the digit run and the
trailing bytes are ignored. -/
theorem strtol10_zero_then_newlines (n : Nat) :
    strtol10 (48 :: List.replicate n 10) 0 = (0, 0) := by
  have e1 : dropSpaces (48 :: List.replicate n 10) = 48 :: List.replicate n 10 :=
    List.dropWhile_cons_of_neg (by decide)
  have e3 : takeDigits (48 :: List.replicate n 10) = [48] := by
    unfold takeDigits
    rw [List.takeWhile_cons_of_pos (by decide), List.takeWhile_replicate]
    simp [isDigitByte]
  simp [strtol10, e1, stripSign_cons_48, e3, digitsVal, LONG_MAX, LONG_MIN]

/-- C3: the claim is right and the code is wrong.  A limit file of 1021
bytes (the digit zero, then 1020 newlines) does not reach end of file within
the 1020-byte read bound (first conjunct), so by the claim, the spec, and
the comment at src/pg_connlimit.c lines 212-215 it must be treated as
unreadable and admitted.  Instead the read loop exits after its first
successful read of 1020 bytes with errno 0, the guard at line 210 compares
the length 1020 against limitBufMaxlen 1024 and cannot fire, the truncated
prefix is parsed as the limit 0, and the connection is fatally rejected. -/
theorem overlong_content_truncated_and_enforced :
    limitRemaining < (48 :: List.replicate 1020 10).length
      ∧ (enforce_limit envOverlong [114] 0).decision
          = .reject ERRCODE_TOO_MANY_CONNECTIONS [114] := by
  constructor
  · rw [List.length_cons, List.length_replicate]
    decide
  · rw [enforce_limit_content envOverlong [100] [114]
      (48 :: List.replicate 1020 10) 0 rfl (by decide) (by decide) rfl]
    have hb : (48 :: List.replicate 1020 10).take limitRemaining
        = 48 :: List.replicate 1019 10 := by
      have h0 : limitRemaining = 1019 + 1 := rfl
      rw [h0, List.take_succ_cons, List.take_replicate]
      norm_num
    rw [hb, strtol10_zero_then_newlines]
    decide

/-- A digit byte is not whitespace, so a digit-led sequence loses nothing to
the whitespace skip. -/
theorem dropSpaces_cons_digit (c : Nat) (t : List Nat) (h : isDigitByte c = true) :
    dropSpaces (c :: t) = c :: t := by
  apply List.dropWhile_cons_of_neg
  simp only [isDigitByte, Bool.and_eq_true, decide_eq_true_eq] at h
  simp only [isSpaceByte, Bool.or_eq_true, Bool.and_eq_true, decide_eq_true_eq,
    beq_iff_eq]
  omega

/-- A digit byte is neither sign byte, so a digit-led sequence also loses
nothing to the sign strip. -/
theorem stripSign_cons_digit (c : Nat) (t : List Nat) (h : isDigitByte c = true) :
    stripSign (c :: t) = (false, c :: t) := by
  simp only [isDigitByte, Bool.and_eq_true, decide_eq_true_eq] at h
  have h43 : c ≠ 43 := by omega
  have h45 : c ≠ 45 := by omega
  simp [stripSign, h43, h45]

/-- A sequence of digit bytes is its own maximal digit run. -/
theorem takeDigits_all (l : List Nat) (h : ∀ c ∈ l, isDigitByte c = true) :
    takeDigits l = l := by
  unfold takeDigits
  induction l with
  | nil => rfl
  | cons c t ih =>
      rw [List.takeWhile_cons_of_pos (h c (List.mem_cons_self c t))]
      rw [ih fun x hx => h x (List.mem_cons_of_mem c hx)]

/-- Every byte of the zero-padded nines sequence is a digit. -/
theorem zeros_nines_all_digits (m k : Nat) :
    ∀ c ∈ List.replicate m 48 ++ List.replicate k 57, isDigitByte c = true := by
  intro c hc
  rcases List.mem_append.mp hc with h | h <;>
    rcases (List.mem_replicate.mp h).2 with rfl <;> decide

/-- When the digit run is nonempty and its signed value lies outside the
range of long, strtol10 reports ERANGE, whatever the errno before the
call was left at by the caller (here 0, per the assertion at
src/pg_connlimit.c line 225). -/
theorem strtol10_overflow (s : List Nat)
    (hds : takeDigits (stripSign (dropSpaces s)).2 ≠ [])
    (hov : LONG_MAX < signedValue s ∨ signedValue s < LONG_MIN) :
    (strtol10 s 0).2 = ERANGE := by
  unfold strtol10
  dsimp only
  simp only [signedValue] at hov
  have hne : (takeDigits (stripSign (dropSpaces s)).2).isEmpty = false := by
    simpa [List.isEmpty_iff] using hds
  rw [hne]
  simp only [Bool.false_eq_true, if_false]
  rcases hov with h | h
  · split_ifs with h1 h2 <;> first | rfl | exact absurd h (by
      by_cases hb : (stripSign (dropSpaces s)).1 <;> simp_all)
  · have h1 : ¬ LONG_MAX
        < (if (stripSign (dropSpaces s)).1
            then -(digitsVal (takeDigits (stripSign (dropSpaces s)).2) : Int)
            else (digitsVal (takeDigits (stripSign (dropSpaces s)).2) : Int)) := by
      by_cases hb : (stripSign (dropSpaces s)).1 <;>
        simp_all [LONG_MAX, LONG_MIN] <;> omega
    split_ifs with h2 h3 <;> first | rfl | exact absurd h (by
      by_cases hb : (stripSign (dropSpaces s)).1 <;> simp_all)

/-- C8, amended: for limit-source content that ends within the 1020-byte
read bound, a leading digit run (after optional whitespace and one optional
sign) whose signed value lies outside the range of long makes strtol report
ERANGE, so the parse stage fails and the decision is admit.  Content longer
than the bound is truncated at the bound first, and only the value of the
truncated prefix matters. -/
theorem overflow_within_bound_admits (env : Env) (dir rolname bytes : List Nat)
    (e0 : Nat)
    (hdir : env.connlimitDirectory = some dir)
    (hrole : env.roleOid rolname ≠ 0)
    (hname : isalphanum rolname = true)
    (hfs : env.fs (limitPath dir rolname) = .content bytes)
    (hb : bytes.length ≤ limitRemaining)
    (hds : takeDigits (stripSign (dropSpaces bytes)).2 ≠ [])
    (hov : LONG_MAX < signedValue bytes ∨ signedValue bytes < LONG_MIN) :
    (enforce_limit env rolname e0).outcome = Outcome.parseFail
      ∧ (enforce_limit env rolname e0).decision = Decision.allow := by
  rw [enforce_limit_content env dir rolname bytes e0 hdir hrole hname hfs]
  rw [List.take_of_length_le hb, strtol10_overflow bytes hds hov]
  simp [ERANGE]

/-- Witness for the amended C8: a limit file of 22 nines denotes 10^22 - 1,
beyond LONG_MAX, and is admitted as a parse failure. -/
theorem overflow_within_bound_admits_witness :
    (enforce_limit envOverflow [114] 0).outcome = Outcome.parseFail
      ∧ (enforce_limit envOverflow [114] 0).decision = Decision.allow :=
  overflow_within_bound_admits envOverflow [100] [114] (List.replicate 22 57) 0
    rfl (by decide) (by decide) rfl (by decide) (by decide) (Or.inl (by decide))

/-- C8, counterexample: the limit-source content of 1018 zero bytes followed
by 26 nine bytes is one leading digit run denoting 10^26 - 1, far outside
the range of long (first conjunct), so by the claim parsing must fail and
the decision must be admit.  Instead the content, 1044 bytes long, is
truncated at the 1020-byte read bound to 1018 zeros and 2 nines, strtol
parses 99 with no error, and at live count 99 the connection is fatally
rejected. -/
theorem zero_padded_overflow_enforced :
    LONG_MAX < (digitsVal (takeDigits (stripSign (dropSpaces
        (List.replicate 1018 48 ++ List.replicate 26 57))).2) : Int)
      ∧ (enforce_limit envZeroPad [114] 0).decision
          = .reject ERRCODE_TOO_MANY_CONNECTIONS [114] := by
  have hcons : List.replicate 1018 48 ++ List.replicate 26 57
      = 48 :: (List.replicate 1017 48 ++ List.replicate 26 57) := by
    rw [show (1018 : Nat) = 1017 + 1 from rfl, List.replicate_succ, List.cons_append]
  have hdigits : ∀ c ∈ List.replicate 1018 48 ++ List.replicate 26 57,
      isDigitByte c = true := zeros_nines_all_digits 1018 26
  have hall : takeDigits (stripSign (dropSpaces
      (List.replicate 1018 48 ++ List.replicate 26 57))).2
      = List.replicate 1018 48 ++ List.replicate 26 57 := by
    rw [hcons, dropSpaces_cons_digit 48 _ (by decide),
      stripSign_cons_digit 48 _ (by decide), ← hcons, takeDigits_all _ hdigits]
  constructor
  · rw [hall, digitsVal_zeros_append]
    have hv : digitsVal (List.replicate 26 57) = 99999999999999999999999999 := by
      decide
    rw [hv]
    decide
  · rw [enforce_limit_content envZeroPad [100] [114]
      (List.replicate 1018 48 ++ List.replicate 26 57) 0 rfl (by decide)
      (by decide) rfl]
    have hb : (List.replicate 1018 48 ++ List.replicate 26 57).take limitRemaining
        = List.replicate 1018 48 ++ List.replicate 2 57 := by
      rw [List.take_append_eq_append_take, List.take_replicate, List.take_replicate,
        List.length_replicate]
      norm_num [limitRemaining, limitBufMaxlen]
    have hcons2 : List.replicate 1018 48 ++ List.replicate 2 57
        = 48 :: (List.replicate 1017 48 ++ List.replicate 2 57) := by
      rw [show (1018 : Nat) = 1017 + 1 from rfl, List.replicate_succ, List.cons_append]
    have hs : strtol10 (List.replicate 1018 48 ++ List.replicate 2 57) 0 = (99, 0) := by
      have hall2 : takeDigits (List.replicate 1018 48 ++ List.replicate 2 57)
          = List.replicate 1018 48 ++ List.replicate 2 57 :=
        takeDigits_all _ (zeros_nines_all_digits 1018 2)
      have hv2 : digitsVal (List.replicate 1018 48 ++ List.replicate 2 57) = 99 := by
        rw [digitsVal_zeros_append]
        decide
      unfold strtol10
      dsimp only
      rw [hcons2, dropSpaces_cons_digit 48 _ (by decide),
        stripSign_cons_digit 48 _ (by decide)]
      dsimp only
      rw [← hcons2, hall2, hv2]
      rw [if_neg (by rw [hcons2]; simp only [List.isEmpty_cons]; decide)]
      norm_num [LONG_MAX, LONG_MIN]
    rw [hb, hs]
    decide

end PgConnlimit
